import Mathlib

/-!
Shallow embedding of the PowerPointBuilder core (src/pp_agent.py):
`analyze_slide_layouts` (the layout inspector) and `build_presentation`
(the slide assembler).  The presentation-library primitives used by the
source are modelled with their documented semantics:

* a text frame is a non-empty list of paragraphs; `TextFrame.clear`
  removes every paragraph but the first and empties it (it does NOT
  leave zero paragraphs);
* assigning `text_frame.text = s` replaces the paragraphs by one
  paragraph per newline-separated segment of `s`; reading
  `text_frame.text` joins the paragraph texts with newlines;
* `add_paragraph` appends a fresh empty paragraph;
* Python list indexing `xs[i]` resolves negative `i` from the end and
  raises `IndexError` when `i` is out of range on either side;
* a slide's speaker-notes text frame is a separate text container;
* loading a presentation and saving it can fail; shapes that reject
  text assignment are modelled by a boolean flag, as are layouts whose
  slide instantiation fails and notes containers whose access fails.

Only warning- and error-level log calls are modelled as `LogEvent`s
(debug/info logging carries no information the specification talks
about).
-/

structure Paragraph where
  text : String
  level : Nat
  fontSize : Option Nat
deriving DecidableEq, Repr

structure TextFrame where
  paragraphs : List Paragraph
deriving DecidableEq, Repr

def emptyParagraph : Paragraph := { text := "", level := 0, fontSize := none }

def emptyTextFrame : TextFrame := { paragraphs := [emptyParagraph] }

/-- Clearing a frame, `TextFrame.clear`: remove all paragraphs except the first and strip its
runs (paragraph-level properties of the first paragraph are preserved). -/
def TextFrame.clear (tf : TextFrame) : TextFrame :=
  match tf.paragraphs with
  | [] => { paragraphs := [emptyParagraph] }
  | p :: _ => { paragraphs := [{ p with text := "" }] }

/-- The `text_frame.text = s` setter: one paragraph per newline-separated
segment of `s`. -/
def TextFrame.setText (s : String) : TextFrame :=
  { paragraphs := (s.toList.splitOn '\n').map
      (fun cs => { text := String.mk cs, level := 0, fontSize := none }) }

/-- The `text_frame.text` getter: paragraph texts joined by newlines. -/
def TextFrame.text (tf : TextFrame) : String :=
  String.mk (List.intercalate ['\n'] (tf.paragraphs.map (fun p => p.text.toList)))

/-- One loop iteration of the list-content branch of the source:
`p = body.add_paragraph(); p.text = str(item); p.level = 0;
p.font.size = Pt(18)`. -/
def addContentItem (tf : TextFrame) (item : String) : TextFrame :=
  { tf with paragraphs := tf.paragraphs ++ [{ text := item, level := 0, fontSize := some 18 }] }

/-- A shape declaration on a layout: whether it owns a text frame and
whether text assignment to it raises. -/
structure ShapeSpec where
  hasTextFrame : Bool
  assignFails : Bool
deriving DecidableEq, Repr

/-- A shape instance on a slide. -/
structure Shape where
  hasTextFrame : Bool
  assignFails : Bool
  tf : TextFrame
deriving DecidableEq, Repr

structure PlaceholderData where
  idx : Nat
  type : String
  name : String
deriving DecidableEq, Repr

structure SlideLayout where
  name : String
  placeholders : List PlaceholderData
  shapes : List ShapeSpec
  addSlideFails : Bool
  notesFails : Bool
deriving DecidableEq, Repr

structure Slide where
  shapes : List Shape
  notesTF : Option TextFrame
  notesFails : Bool
deriving DecidableEq, Repr

structure Template where
  slideLayouts : List SlideLayout
  slides : List Slide
  saveFails : Bool
deriving DecidableEq, Repr

/-- Slide instantiation, `prs.slides.add_slide(layout)`: a fresh slide whose shapes are
instantiated from the layout, each with one empty paragraph. -/
def instantiateSlide (ly : SlideLayout) : Slide :=
  { shapes := ly.shapes.map
      (fun sp => { hasTextFrame := sp.hasTextFrame, assignFails := sp.assignFails, tf := emptyTextFrame }),
    notesTF := none,
    notesFails := ly.notesFails }

/-- Python list indexing `xs[i]` (negative indices resolve from the end;
out of range on either side yields `none`, i.e. `IndexError`). -/
def pyIndex (l : List α) (i : Int) : Option α :=
  if 0 ≤ i then l.get? i.toNat
  else if 0 ≤ (l.length : Int) + i then l.get? ((l.length : Int) + i).toNat
  else none

inductive ContentVal where
  | str (s : String)
  | items (l : List String)
deriving DecidableEq, Repr

/-- One element of `slides_data['slides']`; `none` fields model absent
dictionary keys. -/
structure SlideData where
  layout_index : Option Int
  title : Option String
  content : Option ContentVal
  notes : Option String
deriving DecidableEq, Repr

/-- The warning/error-level log calls of `build_presentation`. -/
inductive LogEvent where
  | layoutFallback (requested : Int)
  | addSlideFailed (layoutIndex : Int)
  | noTextShapes (layoutIndex : Int)
  | contentFailed
  | notesFailed
deriving DecidableEq, Repr

inductive LogLevel where
  | warning
  | error
deriving DecidableEq, Repr

def LogEvent.level : LogEvent → LogLevel
  | .layoutFallback _ => .warning
  | .addSlideFailed _ => .error
  | .noTextShapes _ => .warning
  | .contentFailed => .error
  | .notesFailed => .error

def LogEvent.isSkip : LogEvent → Bool
  | .addSlideFailed _ => true
  | _ => false

def LogEvent.isFallback : LogEvent → Bool
  | .layoutFallback _ => true
  | _ => false

inductive BuildError where
  | loadError
  | titleBindError
  | saveError
deriving DecidableEq, Repr

/-- Resolution of `layout_index = slide_data.get('layout_index', 1)` followed by
`if layout_index >= len(prs.slide_layouts): warn; layout_index = 1`. -/
def resolveLayoutIndex (n : Nat) (e : SlideData) : Int × List LogEvent :=
  let li := e.layout_index.getD 1
  if (n : Int) ≤ li then (1, [.layoutFallback li]) else (li, [])

def resolvedIndex (n : Nat) (e : SlideData) : Int :=
  (resolveLayoutIndex n e).1

/-- The slide's text-bearing shapes, in display order
(`[s for s in slide.shapes if s.has_text_frame]`). -/
def slideTextShapes (sl : Slide) : List Shape :=
  sl.shapes.filter (fun s => s.hasTextFrame)

/-- Replace the `k`-th text-bearing shape of a shape list (in-place
mutation of the shape the filtered view aliases). -/
def updateNthText (f : Shape → Shape) : Nat → List Shape → List Shape
  | _, [] => []
  | k, sh :: rest =>
    if sh.hasTextFrame then
      match k with
      | 0 => f sh :: rest
      | k + 1 => sh :: updateNthText f k rest
    else sh :: updateNthText f k rest

/-- Title binding, `text_shapes[0].text = slide_data.get('title', 'Untitled')` — NOT
wrapped in a `try` in the source, so a rejecting shape propagates. -/
def bindTitle (sl : Slide) (title : String) : Except BuildError Slide :=
  match (slideTextShapes sl).head? with
  | none => .ok sl
  | some sh0 =>
    if sh0.assignFails then .error .titleBindError
    else .ok { sl with shapes := updateNthText (fun s => { s with tf := TextFrame.setText title }) 0 sl.shapes }

/-- The guarded content block: `body.clear()` then either one appended
paragraph per list item or a direct text assignment. -/
def setContentTF (c : ContentVal) (tf : TextFrame) : TextFrame :=
  match c with
  | .items l => l.foldl addContentItem tf.clear
  | .str s => TextFrame.setText s

/-- Content binding, `if len(text_shapes) > 1: try: ... except: log` — content failures
are caught per-field. -/
def bindContent (sl : Slide) (c : ContentVal) : Slide × List LogEvent :=
  let ts := slideTextShapes sl
  if 1 < ts.length then
    match ts.get? 1 with
    | some sh1 =>
      if sh1.assignFails then (sl, [.contentFailed])
      else ({ sl with shapes := updateNthText (fun s => { s with tf := setContentTF c s.tf }) 1 sl.shapes }, [])
    | none => (sl, [])
  else (sl, [])

/-- Notes binding, `notes = slide_data.get('notes', ''); if notes: try: ... except: log`. -/
def bindNotes (sl : Slide) (notes : String) : Slide × List LogEvent :=
  if notes = "" then (sl, [])
  else if sl.notesFails then (sl, [.notesFailed])
  else ({ sl with notesTF := some (TextFrame.setText notes) }, [])

/-- One iteration of the assembler loop, for one plan entry.  Returns the
slides appended to the document (one, or none when `add_slide` failed)
together with the warnings/errors logged; a rejected title assignment is
the only uncaught exception. -/
def processEntry (layouts : List SlideLayout) (e : SlideData) : Except BuildError (List Slide × List LogEvent) :=
  match pyIndex layouts (resolvedIndex layouts.length e) with
  | none =>
    .ok ([], (resolveLayoutIndex layouts.length e).2 ++ [.addSlideFailed (resolvedIndex layouts.length e)])
  | some ly =>
    if ly.addSlideFails then
      .ok ([], (resolveLayoutIndex layouts.length e).2 ++ [.addSlideFailed (resolvedIndex layouts.length e)])
    else if (slideTextShapes (instantiateSlide ly)).isEmpty then
      .ok ([instantiateSlide ly],
        (resolveLayoutIndex layouts.length e).2 ++ [.noTextShapes (resolvedIndex layouts.length e)])
    else
      match bindTitle (instantiateSlide ly) (e.title.getD "Untitled") with
      | .error err => .error err
      | .ok sl1 =>
        .ok ([(bindNotes (bindContent sl1 (e.content.getD (.items []))).1 (e.notes.getD "")).1],
          (resolveLayoutIndex layouts.length e).2 ++
            (bindContent sl1 (e.content.getD (.items []))).2 ++
              (bindNotes (bindContent sl1 (e.content.getD (.items []))).1 (e.notes.getD "")).2)

/-- The assembler loop over the whole plan, appending each entry's
slides to the document. -/
def processPlan (prs : Template) : List SlideData → Except BuildError (Template × List LogEvent)
  | [] => .ok (prs, [])
  | e :: rest =>
    match processEntry prs.slideLayouts e with
    | .error err => .error err
    | .ok (newSlides, logs1) =>
      match processPlan { prs with slides := prs.slides ++ newSlides } rest with
      | .error err => .error err
      | .ok (prs2, logs2) => .ok (prs2, logs1 ++ logs2)

/-- The assembler `build_presentation`: load the template (fatal on failure), process
every plan entry, save (fatal on failure). -/
def build_presentation (file : Option Template) (plan : List SlideData) : Except BuildError (Template × List LogEvent) :=
  match file with
  | none => .error .loadError
  | some prs =>
    match processPlan prs plan with
    | .error err => .error err
    | .ok (prs2, logs) =>
      if prs2.saveFails then .error .saveError else .ok (prs2, logs)

structure LayoutData where
  index : Nat
  name : String
  placeholders : List PlaceholderData
deriving DecidableEq, Repr

structure AnalysisResult where
  layouts : List LayoutData
  total_layouts : Nat
deriving DecidableEq, Repr

/-- The `for idx, layout in enumerate(prs.slide_layouts)` loop of the
inspector. -/
def layoutsInfoAux : Nat → List SlideLayout → List LayoutData
  | _, [] => []
  | i, ly :: rest =>
    { index := i, name := ly.name,
      placeholders := ly.placeholders.map
        (fun p => { idx := p.idx, type := p.type, name := p.name }) } :: layoutsInfoAux (i + 1) rest

/-- The inspector `analyze_slide_layouts`: load the template (fatal on failure) and
describe every layout in template order.  The traversal is read-only, so
the (unchanged) template is returned alongside the description. -/
def analyze_slide_layouts (file : Option Template) : Except BuildError (AnalysisResult × Template) :=
  match file with
  | none => .error .loadError
  | some prs =>
    let ls := layoutsInfoAux 0 prs.slideLayouts
    .ok ({ layouts := ls, total_layouts := ls.length }, prs)

/-! ### Basic properties of the text-frame primitives -/

theorem toList_mk (cs : List Char) : (String.mk cs).toList = cs := rfl

theorem mk_toList (s : String) : String.mk s.toList = s := by cases s; rfl

/-- The `text` getter inverts the `text` setter: newline-separated
segments are joined back with newlines. -/
theorem text_setText (s : String) : (TextFrame.setText s).text = s := by
  unfold TextFrame.setText TextFrame.text
  simp only [List.map_map]
  have h1 : ((fun p : Paragraph => p.text.toList) ∘
      fun cs : List Char => ({ text := String.mk cs, level := 0, fontSize := none } : Paragraph)) = id := by
    funext cs
    rfl
  rw [h1, List.map_id]
  rw [List.intercalate_splitOn s.toList '\n']
  exact mk_toList s

/-- Setting a newline-free string produces a single paragraph holding the
string verbatim. -/
theorem setText_no_newline (s : String) (h : '\n' ∉ s.toList) :
    TextFrame.setText s = { paragraphs := [{ text := s, level := 0, fontSize := none }] } := by
  unfold TextFrame.setText
  have hs : s.toList.splitOn '\n' = [s.toList] := by
    unfold List.splitOn
    exact List.splitOnP_eq_single _ _ (fun x hx => by
      simp only [beq_iff_eq]
      intro he
      exact h (he ▸ hx))
  rw [hs]
  simp [mk_toList]

theorem clear_emptyTextFrame : TextFrame.clear emptyTextFrame = emptyTextFrame := rfl

/-- The list-content loop appends one 18pt, level-0 paragraph per item,
after the cleared frame's single empty paragraph. -/
theorem foldl_addContentItem (l : List String) (tf : TextFrame) :
    (l.foldl addContentItem tf).paragraphs =
      tf.paragraphs ++ l.map (fun it => { text := it, level := 0, fontSize := some 18 }) := by
  induction l generalizing tf with
  | nil => simp
  | cons x xs ih =>
    simp only [List.foldl_cons, List.map_cons]
    rw [ih]
    simp [addContentItem]

theorem setContentTF_items (l : List String) :
    (setContentTF (.items l) emptyTextFrame).paragraphs =
      emptyParagraph :: l.map (fun it => { text := it, level := 0, fontSize := some 18 }) := by
  unfold setContentTF
  rw [foldl_addContentItem]
  rfl

/-! ### Updating the k-th text-bearing shape -/

def applyAt (f : α → α) : Nat → List α → List α
  | _, [] => []
  | 0, x :: xs => f x :: xs
  | k + 1, x :: xs => x :: applyAt f k xs

theorem length_applyAt (f : α → α) (k : Nat) (l : List α) :
    (applyAt f k l).length = l.length := by
  induction l generalizing k with
  | nil => cases k <;> rfl
  | cons x xs ih =>
    cases k with
    | zero => rfl
    | succ k => simp [applyAt, ih]

theorem get?_applyAt_self (f : α → α) (k : Nat) (l : List α) :
    (applyAt f k l).get? k = (l.get? k).map f := by
  induction l generalizing k with
  | nil => cases k <;> rfl
  | cons x xs ih =>
    cases k with
    | zero => rfl
    | succ k => simpa [applyAt] using ih k

theorem get?_applyAt_ne (f : α → α) (k j : Nat) (l : List α) (h : j ≠ k) :
    (applyAt f k l).get? j = l.get? j := by
  induction l generalizing k j with
  | nil => cases k <;> rfl
  | cons x xs ih =>
    cases k with
    | zero =>
      cases j with
      | zero => exact absurd rfl h
      | succ j => rfl
    | succ k =>
      cases j with
      | zero => rfl
      | succ j => simpa [applyAt] using ih k j (fun he => h (by rw [he]))

theorem length_updateNthText (f : Shape → Shape) (k : Nat) (l : List Shape) :
    (updateNthText f k l).length = l.length := by
  induction l generalizing k with
  | nil => cases k <;> rfl
  | cons sh rest ih =>
    cases hsh : sh.hasTextFrame with
    | true =>
      cases k with
      | zero => simp [updateNthText, hsh]
      | succ k => simp [updateNthText, hsh, ih]
    | false => simp [updateNthText, hsh, ih]

/-- Updating the k-th text-bearing shape acts as `applyAt k` on the
filtered view, provided the update preserves `hasTextFrame`. -/
theorem filter_updateNthText (f : Shape → Shape)
    (hf : ∀ s, (f s).hasTextFrame = s.hasTextFrame) (k : Nat) (l : List Shape) :
    (updateNthText f k l).filter (fun s => s.hasTextFrame) =
      applyAt f k (l.filter (fun s => s.hasTextFrame)) := by
  induction l generalizing k with
  | nil => cases k <;> rfl
  | cons sh rest ih =>
    cases hsh : sh.hasTextFrame with
    | true =>
      cases k with
      | zero => simp [updateNthText, hsh, List.filter_cons, hf sh, applyAt]
      | succ k => simp [updateNthText, hsh, List.filter_cons, applyAt, ih]
    | false => simp [updateNthText, hsh, List.filter_cons, ih]

theorem applyAt_of_length_le (f : α → α) (k : Nat) (l : List α) (h : l.length ≤ k) :
    applyAt f k l = l := by
  induction l generalizing k with
  | nil => cases k <;> rfl
  | cons x xs ih =>
    cases k with
    | zero => simp at h
    | succ k =>
      simp only [applyAt, List.cons.injEq, true_and]
      exact ih k (by simpa using h)

/-! ### Shape-level facts about the instantiated slide and the binders -/

theorem slideTextShapes_instantiate (ly : SlideLayout) :
    slideTextShapes (instantiateSlide ly) =
      (ly.shapes.filter (fun sp => sp.hasTextFrame)).map
        (fun sp => { hasTextFrame := sp.hasTextFrame, assignFails := sp.assignFails, tf := emptyTextFrame }) := by
  unfold slideTextShapes instantiateSlide
  rw [List.filter_map]
  rfl

theorem notesTF_instantiate (ly : SlideLayout) : (instantiateSlide ly).notesTF = none := rfl

theorem notesFails_instantiate (ly : SlideLayout) : (instantiateSlide ly).notesFails = ly.notesFails := rfl

theorem bindTitle_ok (sl : Slide) (t : String) (sh0 : Shape)
    (h0 : (slideTextShapes sl).head? = some sh0) (hf : sh0.assignFails = false) :
    bindTitle sl t =
      .ok { sl with shapes := updateNthText (fun s => { s with tf := TextFrame.setText t }) 0 sl.shapes } := by
  unfold bindTitle
  rw [h0]
  simp [hf]

theorem bindTitle_fail (sl : Slide) (t : String) (sh0 : Shape)
    (h0 : (slideTextShapes sl).head? = some sh0) (hf : sh0.assignFails = true) :
    bindTitle sl t = .error .titleBindError := by
  unfold bindTitle
  rw [h0]
  simp [hf]

theorem bindContent_ok (sl : Slide) (c : ContentVal) (sh1 : Shape)
    (hlen : 1 < (slideTextShapes sl).length)
    (h1 : (slideTextShapes sl).get? 1 = some sh1) (hf : sh1.assignFails = false) :
    bindContent sl c =
      ({ sl with shapes := updateNthText (fun s => { s with tf := setContentTF c s.tf }) 1 sl.shapes }, []) := by
  unfold bindContent
  simp only [hlen, if_true]
  rw [h1]
  simp [hf]

theorem bindContent_fail (sl : Slide) (c : ContentVal) (sh1 : Shape)
    (hlen : 1 < (slideTextShapes sl).length)
    (h1 : (slideTextShapes sl).get? 1 = some sh1) (hf : sh1.assignFails = true) :
    bindContent sl c = (sl, [.contentFailed]) := by
  unfold bindContent
  simp only [hlen, if_true]
  rw [h1]
  simp [hf]

theorem bindContent_short (sl : Slide) (c : ContentVal)
    (hlen : ¬1 < (slideTextShapes sl).length) :
    bindContent sl c = (sl, []) := by
  unfold bindContent
  simp [hlen]

theorem bindNotes_empty (sl : Slide) : bindNotes sl "" = (sl, []) := by
  unfold bindNotes
  simp

theorem bindNotes_ok (sl : Slide) (x : String) (hx : x ≠ "") (hn : sl.notesFails = false) :
    bindNotes sl x = ({ sl with notesTF := some (TextFrame.setText x) }, []) := by
  unfold bindNotes
  simp [hx, hn]

theorem bindNotes_fail (sl : Slide) (x : String) (hx : x ≠ "") (hn : sl.notesFails = true) :
    bindNotes sl x = (sl, [.notesFailed]) := by
  unfold bindNotes
  simp [hx, hn]

theorem bindNotes_shapes (sl : Slide) (x : String) : (bindNotes sl x).1.shapes = sl.shapes := by
  unfold bindNotes
  by_cases hx : x = ""
  · simp [hx]
  · by_cases hn : sl.notesFails <;> simp [hx, hn]

/-! ### Normal forms of one assembler iteration -/

theorem processEntry_skip_badIndex (layouts : List SlideLayout) (e : SlideData)
    (h : pyIndex layouts (resolvedIndex layouts.length e) = none) :
    processEntry layouts e =
      .ok ([], (resolveLayoutIndex layouts.length e).2 ++ [.addSlideFailed (resolvedIndex layouts.length e)]) := by
  unfold processEntry
  rw [h]

theorem processEntry_skip_addFail (layouts : List SlideLayout) (e : SlideData) (ly : SlideLayout)
    (hres : pyIndex layouts (resolvedIndex layouts.length e) = some ly)
    (hadd : ly.addSlideFails = true) :
    processEntry layouts e =
      .ok ([], (resolveLayoutIndex layouts.length e).2 ++ [.addSlideFailed (resolvedIndex layouts.length e)]) := by
  unfold processEntry
  rw [hres]
  simp [hadd]

theorem processEntry_noTextShapes (layouts : List SlideLayout) (e : SlideData) (ly : SlideLayout)
    (hres : pyIndex layouts (resolvedIndex layouts.length e) = some ly)
    (hadd : ly.addSlideFails = false)
    (hempty : ly.shapes.filter (fun sp => sp.hasTextFrame) = []) :
    processEntry layouts e =
      .ok ([instantiateSlide ly],
        (resolveLayoutIndex layouts.length e).2 ++ [.noTextShapes (resolvedIndex layouts.length e)]) := by
  unfold processEntry
  rw [hres]
  simp only [hadd, if_false, Bool.false_eq_true]
  have he : (slideTextShapes (instantiateSlide ly)).isEmpty = true := by
    rw [slideTextShapes_instantiate, hempty]
    rfl
  simp [he]

theorem processEntry_titleFail (layouts : List SlideLayout) (e : SlideData) (ly : SlideLayout)
    (hres : pyIndex layouts (resolvedIndex layouts.length e) = some ly)
    (hadd : ly.addSlideFails = false)
    (sp0 : ShapeSpec) (rest : List ShapeSpec)
    (hfts : ly.shapes.filter (fun sp => sp.hasTextFrame) = sp0 :: rest)
    (hfail : sp0.assignFails = true) :
    processEntry layouts e = .error .titleBindError := by
  unfold processEntry
  rw [hres]
  simp only [hadd, if_false, Bool.false_eq_true]
  have hb : slideTextShapes (instantiateSlide ly) =
      ({ hasTextFrame := sp0.hasTextFrame, assignFails := sp0.assignFails, tf := emptyTextFrame } : Shape) ::
        rest.map (fun sp => { hasTextFrame := sp.hasTextFrame, assignFails := sp.assignFails, tf := emptyTextFrame }) := by
    rw [slideTextShapes_instantiate, hfts]
    rfl
  have hne : (slideTextShapes (instantiateSlide ly)).isEmpty = false := by
    rw [hb]
    rfl
  simp only [hne, Bool.false_eq_true, if_false]
  rw [bindTitle_fail _ _ _ (by rw [hb]; rfl) (by simpa using hfail)]

/-- The fully-benign iteration: the layout resolves, `add_slide`
succeeds, the slide has at least one text-bearing shape, every shape
accepts text and the notes container works.  The title lands in text
shape 0, the content in text shape 1 (a no-op when there is no second
text shape), the notes in the speaker-notes frame, and only the
resolution warnings are logged. -/
theorem processEntry_benign (layouts : List SlideLayout) (e : SlideData) (ly : SlideLayout)
    (hres : pyIndex layouts (resolvedIndex layouts.length e) = some ly)
    (hadd : ly.addSlideFails = false)
    (hne : ly.shapes.filter (fun sp => sp.hasTextFrame) ≠ [])
    (hben : ∀ sp ∈ ly.shapes, sp.assignFails = false)
    (hnf : ly.notesFails = false) :
    ∃ sl : Slide,
      processEntry layouts e = .ok ([sl], (resolveLayoutIndex layouts.length e).2) ∧
      slideTextShapes sl =
        applyAt (fun s => { s with tf := setContentTF (e.content.getD (.items [])) s.tf }) 1
          (applyAt (fun s => { s with tf := TextFrame.setText (e.title.getD "Untitled") }) 0
            ((ly.shapes.filter (fun sp => sp.hasTextFrame)).map
              (fun sp => { hasTextFrame := sp.hasTextFrame, assignFails := sp.assignFails, tf := emptyTextFrame }))) ∧
      sl.notesTF = (if e.notes.getD "" = "" then none else some (TextFrame.setText (e.notes.getD ""))) := by
  obtain ⟨sp0, rest, hfts⟩ := List.exists_cons_of_ne_nil hne
  have hsts : slideTextShapes (instantiateSlide ly) =
      (ly.shapes.filter (fun sp => sp.hasTextFrame)).map
        (fun sp => ({ hasTextFrame := sp.hasTextFrame, assignFails := sp.assignFails, tf := emptyTextFrame } : Shape)) :=
    slideTextShapes_instantiate ly
  have hisEmpty : (slideTextShapes (instantiateSlide ly)).isEmpty = false := by
    rw [hsts, hfts]
    rfl
  have h0 : (slideTextShapes (instantiateSlide ly)).head? =
      some { hasTextFrame := sp0.hasTextFrame, assignFails := sp0.assignFails, tf := emptyTextFrame } := by
    rw [hsts, hfts]
    rfl
  have hsp0 : sp0.assignFails = false :=
    hben sp0 (List.mem_of_mem_filter (hfts ▸ List.mem_cons_self sp0 rest))
  have htitle := bindTitle_ok (instantiateSlide ly) (e.title.getD "Untitled") _ h0 hsp0
  have hshT : ∀ s : Shape,
      ((fun s : Shape => { s with tf := TextFrame.setText (e.title.getD "Untitled") }) s).hasTextFrame = s.hasTextFrame :=
    fun _ => rfl
  have hshC : ∀ s : Shape,
      ((fun s : Shape => { s with tf := setContentTF (e.content.getD (.items [])) s.tf }) s).hasTextFrame = s.hasTextFrame :=
    fun _ => rfl
  have hsl1 : slideTextShapes
      { instantiateSlide ly with
        shapes := updateNthText (fun s => { s with tf := TextFrame.setText (e.title.getD "Untitled") }) 0 (instantiateSlide ly).shapes } =
      applyAt (fun s => { s with tf := TextFrame.setText (e.title.getD "Untitled") }) 0
        (slideTextShapes (instantiateSlide ly)) := by
    unfold slideTextShapes at *
    exact filter_updateNthText _ hshT 0 (instantiateSlide ly).shapes
  have hPEpath : processEntry layouts e =
      .ok ([(bindNotes (bindContent
          { instantiateSlide ly with
            shapes := updateNthText (fun s => { s with tf := TextFrame.setText (e.title.getD "Untitled") }) 0 (instantiateSlide ly).shapes }
          (e.content.getD (.items []))).1 (e.notes.getD "")).1],
        (resolveLayoutIndex layouts.length e).2 ++
          (bindContent
            { instantiateSlide ly with
              shapes := updateNthText (fun s => { s with tf := TextFrame.setText (e.title.getD "Untitled") }) 0 (instantiateSlide ly).shapes }
            (e.content.getD (.items []))).2 ++
            (bindNotes (bindContent
              { instantiateSlide ly with
                shapes := updateNthText (fun s => { s with tf := TextFrame.setText (e.title.getD "Untitled") }) 0 (instantiateSlide ly).shapes }
              (e.content.getD (.items []))).1 (e.notes.getD "")).2) := by
    unfold processEntry
    rw [hres]
    simp only [hadd, Bool.false_eq_true, if_false, hisEmpty]
    rw [htitle]
  have hnotesFails1 : ∀ sh : List Shape,
      ({ instantiateSlide ly with shapes := sh } : Slide).notesFails = false := fun _ => hnf
  by_cases hl : 1 < (ly.shapes.filter (fun sp => sp.hasTextFrame)).length
  · -- a second text-bearing shape exists: content is bound to it
    have hrest : rest ≠ [] := by
      intro h
      rw [hfts, h] at hl
      simp at hl
    obtain ⟨sp1, rest', hrest'⟩ := List.exists_cons_of_ne_nil hrest
    have hlen1 : 1 < (slideTextShapes
        { instantiateSlide ly with
          shapes := updateNthText (fun s => { s with tf := TextFrame.setText (e.title.getD "Untitled") }) 0 (instantiateSlide ly).shapes }).length := by
      rw [hsl1, length_applyAt, hsts, List.length_map]
      exact hl
    have hget1 : (slideTextShapes
        { instantiateSlide ly with
          shapes := updateNthText (fun s => { s with tf := TextFrame.setText (e.title.getD "Untitled") }) 0 (instantiateSlide ly).shapes }).get? 1 =
        some { hasTextFrame := sp1.hasTextFrame, assignFails := sp1.assignFails, tf := emptyTextFrame } := by
      rw [hsl1, get?_applyAt_ne _ 0 1 _ (by decide), hsts, hfts, hrest']
      rfl
    have hsp1mem : sp1 ∈ List.filter (fun sp => sp.hasTextFrame) ly.shapes := by
      rw [hfts, hrest']
      exact List.mem_cons_of_mem sp0 (List.mem_cons_self sp1 rest')
    have hsp1 : sp1.assignFails = false := hben sp1 (List.mem_of_mem_filter hsp1mem)
    have hcontent := bindContent_ok _ (e.content.getD (.items [])) _ hlen1 hget1 hsp1
    rw [hcontent] at hPEpath
    have hsl2 : slideTextShapes
        { instantiateSlide ly with
          shapes := updateNthText (fun s => { s with tf := setContentTF (e.content.getD (.items [])) s.tf }) 1
            (updateNthText (fun s => { s with tf := TextFrame.setText (e.title.getD "Untitled") }) 0 (instantiateSlide ly).shapes) } =
        applyAt (fun s => { s with tf := setContentTF (e.content.getD (.items [])) s.tf }) 1
          (applyAt (fun s => { s with tf := TextFrame.setText (e.title.getD "Untitled") }) 0
            (slideTextShapes (instantiateSlide ly))) := by
      unfold slideTextShapes at *
      rw [filter_updateNthText _ hshC 1 _, filter_updateNthText _ hshT 0 _]
    by_cases hx : e.notes.getD "" = ""
    · rw [hx, bindNotes_empty] at hPEpath
      refine ⟨_, by simpa using hPEpath, ?_, ?_⟩
      · rw [hsl2, hsts]
      · simp [hx, notesTF_instantiate]
    · rw [bindNotes_ok _ _ hx (hnotesFails1 _)] at hPEpath
      refine ⟨_, by simpa using hPEpath, ?_, ?_⟩
      · show slideTextShapes
          { instantiateSlide ly with
            shapes := updateNthText (fun s => { s with tf := setContentTF (e.content.getD (.items [])) s.tf }) 1
              (updateNthText (fun s => { s with tf := TextFrame.setText (e.title.getD "Untitled") }) 0 (instantiateSlide ly).shapes) } = _
        rw [hsl2, hsts]
      · simp [hx, notesTF_instantiate]
  · -- no second text-bearing shape: the content block is skipped
    have hlen1 : ¬1 < (slideTextShapes
        { instantiateSlide ly with
          shapes := updateNthText (fun s => { s with tf := TextFrame.setText (e.title.getD "Untitled") }) 0 (instantiateSlide ly).shapes }).length := by
      rw [hsl1, length_applyAt, hsts, List.length_map]
      exact hl
    have hcontent := bindContent_short _ (e.content.getD (.items [])) hlen1
    rw [hcontent] at hPEpath
    have hskip : applyAt (fun s => { s with tf := setContentTF (e.content.getD (.items [])) s.tf }) 1
        (applyAt (fun s => { s with tf := TextFrame.setText (e.title.getD "Untitled") }) 0
          (slideTextShapes (instantiateSlide ly))) =
        applyAt (fun s => { s with tf := TextFrame.setText (e.title.getD "Untitled") }) 0
          (slideTextShapes (instantiateSlide ly)) := by
      refine applyAt_of_length_le _ 1 _ ?_
      rw [length_applyAt, hsts, List.length_map]
      omega
    by_cases hx : e.notes.getD "" = ""
    · rw [hx, bindNotes_empty] at hPEpath
      refine ⟨_, by simpa using hPEpath, ?_, ?_⟩
      · rw [← hsts, hskip, ← hsl1]
      · simp [hx, notesTF_instantiate]
    · rw [bindNotes_ok _ _ hx (hnotesFails1 _)] at hPEpath
      refine ⟨_, by simpa using hPEpath, ?_, ?_⟩
      · show slideTextShapes
          { instantiateSlide ly with
            shapes := updateNthText (fun s => { s with tf := TextFrame.setText (e.title.getD "Untitled") }) 0 (instantiateSlide ly).shapes } = _
        rw [← hsts, hskip, ← hsl1]
      · simp [hx, notesTF_instantiate]

/-- A rejecting second text shape: the content failure is caught and
logged, the title keeps its binding and the notes are still attempted. -/
theorem processEntry_contentFail (layouts : List SlideLayout) (e : SlideData) (ly : SlideLayout)
    (sp0 sp1 : ShapeSpec) (rest' : List ShapeSpec)
    (hres : pyIndex layouts (resolvedIndex layouts.length e) = some ly)
    (hadd : ly.addSlideFails = false)
    (hfts : ly.shapes.filter (fun sp => sp.hasTextFrame) = sp0 :: sp1 :: rest')
    (hsp0 : sp0.assignFails = false)
    (hsp1 : sp1.assignFails = true)
    (hnf : ly.notesFails = false) :
    ∃ sl : Slide,
      processEntry layouts e =
        .ok ([sl], (resolveLayoutIndex layouts.length e).2 ++ [.contentFailed] ++
          (if e.notes.getD "" = "" then ([] : List LogEvent) else [])) ∧
      slideTextShapes sl =
        applyAt (fun s => { s with tf := TextFrame.setText (e.title.getD "Untitled") }) 0
          ((ly.shapes.filter (fun sp => sp.hasTextFrame)).map
            (fun sp => { hasTextFrame := sp.hasTextFrame, assignFails := sp.assignFails, tf := emptyTextFrame })) ∧
      sl.notesTF = (if e.notes.getD "" = "" then none else some (TextFrame.setText (e.notes.getD ""))) := by
  have hsts : slideTextShapes (instantiateSlide ly) =
      (ly.shapes.filter (fun sp => sp.hasTextFrame)).map
        (fun sp => ({ hasTextFrame := sp.hasTextFrame, assignFails := sp.assignFails, tf := emptyTextFrame } : Shape)) :=
    slideTextShapes_instantiate ly
  have hisEmpty : (slideTextShapes (instantiateSlide ly)).isEmpty = false := by
    rw [hsts, hfts]
    rfl
  have h0 : (slideTextShapes (instantiateSlide ly)).head? =
      some { hasTextFrame := sp0.hasTextFrame, assignFails := sp0.assignFails, tf := emptyTextFrame } := by
    rw [hsts, hfts]
    rfl
  have htitle := bindTitle_ok (instantiateSlide ly) (e.title.getD "Untitled") _ h0 hsp0
  have hshT : ∀ s : Shape,
      ((fun s : Shape => { s with tf := TextFrame.setText (e.title.getD "Untitled") }) s).hasTextFrame = s.hasTextFrame :=
    fun _ => rfl
  have hsl1 : slideTextShapes
      { instantiateSlide ly with
        shapes := updateNthText (fun s => { s with tf := TextFrame.setText (e.title.getD "Untitled") }) 0 (instantiateSlide ly).shapes } =
      applyAt (fun s => { s with tf := TextFrame.setText (e.title.getD "Untitled") }) 0
        (slideTextShapes (instantiateSlide ly)) := by
    unfold slideTextShapes at *
    exact filter_updateNthText _ hshT 0 (instantiateSlide ly).shapes
  have hPEpath : processEntry layouts e =
      .ok ([(bindNotes (bindContent
          { instantiateSlide ly with
            shapes := updateNthText (fun s => { s with tf := TextFrame.setText (e.title.getD "Untitled") }) 0 (instantiateSlide ly).shapes }
          (e.content.getD (.items []))).1 (e.notes.getD "")).1],
        (resolveLayoutIndex layouts.length e).2 ++
          (bindContent
            { instantiateSlide ly with
              shapes := updateNthText (fun s => { s with tf := TextFrame.setText (e.title.getD "Untitled") }) 0 (instantiateSlide ly).shapes }
            (e.content.getD (.items []))).2 ++
            (bindNotes (bindContent
              { instantiateSlide ly with
                shapes := updateNthText (fun s => { s with tf := TextFrame.setText (e.title.getD "Untitled") }) 0 (instantiateSlide ly).shapes }
              (e.content.getD (.items []))).1 (e.notes.getD "")).2) := by
    unfold processEntry
    rw [hres]
    simp only [hadd, Bool.false_eq_true, if_false, hisEmpty]
    rw [htitle]
  have hlen1 : 1 < (slideTextShapes
      { instantiateSlide ly with
        shapes := updateNthText (fun s => { s with tf := TextFrame.setText (e.title.getD "Untitled") }) 0 (instantiateSlide ly).shapes }).length := by
    rw [hsl1, length_applyAt, hsts, List.length_map, hfts]
    simp
  have hget1 : (slideTextShapes
      { instantiateSlide ly with
        shapes := updateNthText (fun s => { s with tf := TextFrame.setText (e.title.getD "Untitled") }) 0 (instantiateSlide ly).shapes }).get? 1 =
      some { hasTextFrame := sp1.hasTextFrame, assignFails := sp1.assignFails, tf := emptyTextFrame } := by
    rw [hsl1, get?_applyAt_ne _ 0 1 _ (by decide), hsts, hfts]
    rfl
  have hcontent := bindContent_fail _ (e.content.getD (.items [])) _ hlen1 hget1 hsp1
  rw [hcontent] at hPEpath
  have hnotesFails1 : ∀ sh : List Shape,
      ({ instantiateSlide ly with shapes := sh } : Slide).notesFails = false := fun _ => hnf
  by_cases hx : e.notes.getD "" = ""
  · rw [hx, bindNotes_empty] at hPEpath
    refine ⟨_, by simpa [hx] using hPEpath, ?_, ?_⟩
    · rw [hsl1, hsts]
    · simp [hx, notesTF_instantiate]
  · rw [bindNotes_ok _ _ hx (hnotesFails1 _)] at hPEpath
    refine ⟨_, by simpa [hx] using hPEpath, ?_, ?_⟩
    · show slideTextShapes
        { instantiateSlide ly with
          shapes := updateNthText (fun s => { s with tf := TextFrame.setText (e.title.getD "Untitled") }) 0 (instantiateSlide ly).shapes } = _
      rw [hsl1, hsts]
    · simp [hx]

/-- A failing speaker-notes container: the notes failure is caught and
logged, and the title/content bindings of the slide are unaffected. -/
theorem processEntry_notesFail (layouts : List SlideLayout) (e : SlideData) (ly : SlideLayout)
    (hres : pyIndex layouts (resolvedIndex layouts.length e) = some ly)
    (hadd : ly.addSlideFails = false)
    (hne : ly.shapes.filter (fun sp => sp.hasTextFrame) ≠ [])
    (hben : ∀ sp ∈ ly.shapes, sp.assignFails = false)
    (hnf : ly.notesFails = true)
    (hnx : e.notes.getD "" ≠ "") :
    ∃ sl : Slide,
      processEntry layouts e =
        .ok ([sl], (resolveLayoutIndex layouts.length e).2 ++ [.notesFailed]) ∧
      slideTextShapes sl =
        applyAt (fun s => { s with tf := setContentTF (e.content.getD (.items [])) s.tf }) 1
          (applyAt (fun s => { s with tf := TextFrame.setText (e.title.getD "Untitled") }) 0
            ((ly.shapes.filter (fun sp => sp.hasTextFrame)).map
              (fun sp => { hasTextFrame := sp.hasTextFrame, assignFails := sp.assignFails, tf := emptyTextFrame }))) ∧
      sl.notesTF = none := by
  obtain ⟨sp0, rest, hfts⟩ := List.exists_cons_of_ne_nil hne
  have hsts : slideTextShapes (instantiateSlide ly) =
      (ly.shapes.filter (fun sp => sp.hasTextFrame)).map
        (fun sp => ({ hasTextFrame := sp.hasTextFrame, assignFails := sp.assignFails, tf := emptyTextFrame } : Shape)) :=
    slideTextShapes_instantiate ly
  have hisEmpty : (slideTextShapes (instantiateSlide ly)).isEmpty = false := by
    rw [hsts, hfts]
    rfl
  have h0 : (slideTextShapes (instantiateSlide ly)).head? =
      some { hasTextFrame := sp0.hasTextFrame, assignFails := sp0.assignFails, tf := emptyTextFrame } := by
    rw [hsts, hfts]
    rfl
  have hsp0 : sp0.assignFails = false :=
    hben sp0 (List.mem_of_mem_filter (hfts ▸ List.mem_cons_self sp0 rest))
  have htitle := bindTitle_ok (instantiateSlide ly) (e.title.getD "Untitled") _ h0 hsp0
  have hshT : ∀ s : Shape,
      ((fun s : Shape => { s with tf := TextFrame.setText (e.title.getD "Untitled") }) s).hasTextFrame = s.hasTextFrame :=
    fun _ => rfl
  have hshC : ∀ s : Shape,
      ((fun s : Shape => { s with tf := setContentTF (e.content.getD (.items [])) s.tf }) s).hasTextFrame = s.hasTextFrame :=
    fun _ => rfl
  have hsl1 : slideTextShapes
      { instantiateSlide ly with
        shapes := updateNthText (fun s => { s with tf := TextFrame.setText (e.title.getD "Untitled") }) 0 (instantiateSlide ly).shapes } =
      applyAt (fun s => { s with tf := TextFrame.setText (e.title.getD "Untitled") }) 0
        (slideTextShapes (instantiateSlide ly)) := by
    unfold slideTextShapes at *
    exact filter_updateNthText _ hshT 0 (instantiateSlide ly).shapes
  have hPEpath : processEntry layouts e =
      .ok ([(bindNotes (bindContent
          { instantiateSlide ly with
            shapes := updateNthText (fun s => { s with tf := TextFrame.setText (e.title.getD "Untitled") }) 0 (instantiateSlide ly).shapes }
          (e.content.getD (.items []))).1 (e.notes.getD "")).1],
        (resolveLayoutIndex layouts.length e).2 ++
          (bindContent
            { instantiateSlide ly with
              shapes := updateNthText (fun s => { s with tf := TextFrame.setText (e.title.getD "Untitled") }) 0 (instantiateSlide ly).shapes }
            (e.content.getD (.items []))).2 ++
            (bindNotes (bindContent
              { instantiateSlide ly with
                shapes := updateNthText (fun s => { s with tf := TextFrame.setText (e.title.getD "Untitled") }) 0 (instantiateSlide ly).shapes }
              (e.content.getD (.items []))).1 (e.notes.getD "")).2) := by
    unfold processEntry
    rw [hres]
    simp only [hadd, Bool.false_eq_true, if_false, hisEmpty]
    rw [htitle]
  have hnotesFails1 : ∀ sh : List Shape,
      ({ instantiateSlide ly with shapes := sh } : Slide).notesFails = true := fun _ => hnf
  by_cases hl : 1 < (ly.shapes.filter (fun sp => sp.hasTextFrame)).length
  · have hrest : rest ≠ [] := by
      intro h
      rw [hfts, h] at hl
      simp at hl
    obtain ⟨sp1, rest', hrest'⟩ := List.exists_cons_of_ne_nil hrest
    have hlen1 : 1 < (slideTextShapes
        { instantiateSlide ly with
          shapes := updateNthText (fun s => { s with tf := TextFrame.setText (e.title.getD "Untitled") }) 0 (instantiateSlide ly).shapes }).length := by
      rw [hsl1, length_applyAt, hsts, List.length_map]
      exact hl
    have hget1 : (slideTextShapes
        { instantiateSlide ly with
          shapes := updateNthText (fun s => { s with tf := TextFrame.setText (e.title.getD "Untitled") }) 0 (instantiateSlide ly).shapes }).get? 1 =
        some { hasTextFrame := sp1.hasTextFrame, assignFails := sp1.assignFails, tf := emptyTextFrame } := by
      rw [hsl1, get?_applyAt_ne _ 0 1 _ (by decide), hsts, hfts, hrest']
      rfl
    have hsp1mem : sp1 ∈ List.filter (fun sp => sp.hasTextFrame) ly.shapes := by
      rw [hfts, hrest']
      exact List.mem_cons_of_mem sp0 (List.mem_cons_self sp1 rest')
    have hsp1 : sp1.assignFails = false := hben sp1 (List.mem_of_mem_filter hsp1mem)
    have hcontent := bindContent_ok _ (e.content.getD (.items [])) _ hlen1 hget1 hsp1
    rw [hcontent] at hPEpath
    have hsl2 : slideTextShapes
        { instantiateSlide ly with
          shapes := updateNthText (fun s => { s with tf := setContentTF (e.content.getD (.items [])) s.tf }) 1
            (updateNthText (fun s => { s with tf := TextFrame.setText (e.title.getD "Untitled") }) 0 (instantiateSlide ly).shapes) } =
        applyAt (fun s => { s with tf := setContentTF (e.content.getD (.items [])) s.tf }) 1
          (applyAt (fun s => { s with tf := TextFrame.setText (e.title.getD "Untitled") }) 0
            (slideTextShapes (instantiateSlide ly))) := by
      unfold slideTextShapes at *
      rw [filter_updateNthText _ hshC 1 _, filter_updateNthText _ hshT 0 _]
    rw [bindNotes_fail _ _ hnx (hnotesFails1 _)] at hPEpath
    refine ⟨_, by simpa using hPEpath, ?_, ?_⟩
    · rw [hsl2, hsts]
    · simp [notesTF_instantiate]
  · have hlen1 : ¬1 < (slideTextShapes
        { instantiateSlide ly with
          shapes := updateNthText (fun s => { s with tf := TextFrame.setText (e.title.getD "Untitled") }) 0 (instantiateSlide ly).shapes }).length := by
      rw [hsl1, length_applyAt, hsts, List.length_map]
      exact hl
    have hcontent := bindContent_short _ (e.content.getD (.items [])) hlen1
    rw [hcontent] at hPEpath
    have hskip : applyAt (fun s => { s with tf := setContentTF (e.content.getD (.items [])) s.tf }) 1
        (applyAt (fun s => { s with tf := TextFrame.setText (e.title.getD "Untitled") }) 0
          (slideTextShapes (instantiateSlide ly))) =
        applyAt (fun s => { s with tf := TextFrame.setText (e.title.getD "Untitled") }) 0
          (slideTextShapes (instantiateSlide ly)) := by
      refine applyAt_of_length_le _ 1 _ ?_
      rw [length_applyAt, hsts, List.length_map]
      omega
    rw [bindNotes_fail _ _ hnx (hnotesFails1 _)] at hPEpath
    refine ⟨_, by simpa using hPEpath, ?_, ?_⟩
    · show slideTextShapes
        { instantiateSlide ly with
          shapes := updateNthText (fun s => { s with tf := TextFrame.setText (e.title.getD "Untitled") }) 0 (instantiateSlide ly).shapes } = _
      rw [← hsts, hskip, ← hsl1]
    · simp [notesTF_instantiate]

/-! ### Plan-level structure of the assembler -/

/-- The slides one entry contributes to the document. -/
def entrySlides (layouts : List SlideLayout) (e : SlideData) : List Slide :=
  match processEntry layouts e with
  | .ok (sls, _) => sls
  | .error _ => []

/-- The warnings/errors one entry contributes to the log. -/
def entryLogs (layouts : List SlideLayout) (e : SlideData) : List LogEvent :=
  match processEntry layouts e with
  | .ok (_, logs) => logs
  | .error _ => []

/-- Whether `add_slide` succeeds for an entry: its resolved layout index
is in (Python) range and the layout instantiates. -/
def addSucceeds (layouts : List SlideLayout) (e : SlideData) : Bool :=
  match pyIndex layouts (resolvedIndex layouts.length e) with
  | none => false
  | some ly => !ly.addSlideFails

theorem processPlan_ok (plan : List SlideData) (prs prs2 : Template) (logs : List LogEvent)
    (h : processPlan prs plan = .ok (prs2, logs)) :
    prs2 = { prs with slides := prs.slides ++ plan.flatMap (entrySlides prs.slideLayouts) } ∧
    logs = plan.flatMap (entryLogs prs.slideLayouts) ∧
    ∀ e ∈ plan, ∃ out, processEntry prs.slideLayouts e = .ok out := by
  induction plan generalizing prs logs with
  | nil =>
    unfold processPlan at h
    injection h with h'
    injection h' with h1 h2
    subst h1
    subst h2
    refine ⟨?_, rfl, by simp⟩
    simp
  | cons e rest ih =>
    unfold processPlan at h
    cases hpe : processEntry prs.slideLayouts e with
    | error err => rw [hpe] at h; exact absurd h (by simp)
    | ok out =>
      obtain ⟨newSlides, logs1⟩ := out
      rw [hpe] at h
      dsimp only at h
      cases hpp : processPlan { prs with slides := prs.slides ++ newSlides } rest with
      | error err => rw [hpp] at h; exact absurd h (by simp)
      | ok out2 =>
        obtain ⟨prs', logs2⟩ := out2
        rw [hpp] at h
        injection h with h'
        injection h' with h1 h2
        subst h1
        subst h2
        obtain ⟨ih1, ih2, ih3⟩ := ih { prs with slides := prs.slides ++ newSlides } logs2 hpp
        have hlay : ({ prs with slides := prs.slides ++ newSlides } : Template).slideLayouts = prs.slideLayouts := rfl
        rw [hlay] at ih1 ih2 ih3
        refine ⟨?_, ?_, ?_⟩
        · rw [ih1]
          have hes : entrySlides prs.slideLayouts e = newSlides := by
            unfold entrySlides
            rw [hpe]
          simp [hes, List.append_assoc]
        · have hel : entryLogs prs.slideLayouts e = logs1 := by
            unfold entryLogs
            rw [hpe]
          simp [hel, ih2]
        · intro x hx
          rcases List.mem_cons.mp hx with hx | hx
          · subst hx
            exact ⟨_, hpe⟩
          · exact ih3 x hx

theorem resolve_snd_noSkip (n : Nat) (e : SlideData) :
    ((resolveLayoutIndex n e).2).countP LogEvent.isSkip = 0 := by
  unfold resolveLayoutIndex
  by_cases h : (n : Int) ≤ e.layout_index.getD 1 <;> simp [h, List.countP_cons, LogEvent.isSkip]

theorem bindContent_snd_noSkip (sl : Slide) (c : ContentVal) :
    ((bindContent sl c).2).countP LogEvent.isSkip = 0 := by
  unfold bindContent
  by_cases h : 1 < (slideTextShapes sl).length
  · simp only [h, if_true]
    cases h1 : (slideTextShapes sl).get? 1 with
    | none => rfl
    | some sh1 => by_cases hf : sh1.assignFails <;> simp [hf, List.countP_cons, LogEvent.isSkip]
  · simp [h]

theorem bindNotes_snd_noSkip (sl : Slide) (x : String) :
    ((bindNotes sl x).2).countP LogEvent.isSkip = 0 := by
  unfold bindNotes
  by_cases hx : x = ""
  · simp [hx]
  · by_cases hn : sl.notesFails <;> simp [hx, hn, List.countP_cons, LogEvent.isSkip]

/-- Each non-aborting entry contributes exactly one slide when
`add_slide` succeeds (and zero otherwise), and exactly one skip log
entry when it fails (and zero otherwise). -/
theorem processEntry_count (layouts : List SlideLayout) (e : SlideData)
    (sls : List Slide) (logs : List LogEvent)
    (h : processEntry layouts e = .ok (sls, logs)) :
    (sls.length = if addSucceeds layouts e then 1 else 0) ∧
    (logs.countP LogEvent.isSkip = if addSucceeds layouts e then 0 else 1) := by
  unfold processEntry at h
  unfold addSucceeds
  cases hpi : pyIndex layouts (resolvedIndex layouts.length e) with
  | none =>
    rw [hpi] at h
    injection h with h'
    injection h' with h1 h2
    subst h1
    subst h2
    simp [List.countP_append, resolve_snd_noSkip, List.countP_cons, LogEvent.isSkip]
  | some ly =>
    rw [hpi] at h
    dsimp only at h ⊢
    by_cases hadd : ly.addSlideFails
    · rw [if_pos hadd] at h
      injection h with h'
      injection h' with h1 h2
      subst h1
      subst h2
      simp [hadd, List.countP_append, resolve_snd_noSkip, List.countP_cons, LogEvent.isSkip]
    · rw [if_neg hadd] at h
      simp only [Bool.not_eq_true] at hadd
      by_cases hemp : (slideTextShapes (instantiateSlide ly)).isEmpty
      · rw [if_pos hemp] at h
        injection h with h'
        injection h' with h1 h2
        subst h1
        subst h2
        simp [hadd, List.countP_append, resolve_snd_noSkip, List.countP_cons, LogEvent.isSkip]
      · rw [if_neg hemp] at h
        cases htitle : bindTitle (instantiateSlide ly) (e.title.getD "Untitled") with
        | error err => rw [htitle] at h; exact absurd h (by simp)
        | ok sl1 =>
          rw [htitle] at h
          dsimp only at h
          injection h with h'
          injection h' with h1 h2
          subst h1
          subst h2
          simp [hadd, List.countP_append, resolve_snd_noSkip, bindContent_snd_noSkip, bindNotes_snd_noSkip]

/-- Summed over a plan of non-aborting entries: slides added = entries
whose `add_slide` succeeded, skip logs = entries whose `add_slide`
failed. -/
theorem plan_counts (layouts : List SlideLayout) (plan : List SlideData)
    (hok : ∀ e ∈ plan, ∃ out, processEntry layouts e = .ok out) :
    (plan.flatMap (entrySlides layouts)).length =
      (plan.filter (fun e => addSucceeds layouts e)).length ∧
    (plan.flatMap (entryLogs layouts)).countP LogEvent.isSkip =
      (plan.filter (fun e => !addSucceeds layouts e)).length := by
  induction plan with
  | nil => exact ⟨rfl, rfl⟩
  | cons e rest ih =>
    obtain ⟨⟨sls, logs⟩, hpe⟩ := hok e (List.mem_cons_self e rest)
    obtain ⟨ih1, ih2⟩ := ih (fun x hx => hok x (List.mem_cons_of_mem e hx))
    obtain ⟨hc1, hc2⟩ := processEntry_count layouts e sls logs hpe
    have hes : entrySlides layouts e = sls := by
      unfold entrySlides
      rw [hpe]
    have hel : entryLogs layouts e = logs := by
      unfold entryLogs
      rw [hpe]
    constructor
    · rw [List.flatMap_cons, List.length_append, hes, hc1, ih1, List.filter_cons]
      by_cases hs : addSucceeds layouts e <;> simp [hs, Nat.add_comm]
    · rw [List.flatMap_cons, List.countP_append, hel, hc2, ih2, List.filter_cons]
      by_cases hs : addSucceeds layouts e <;> simp [hs, Nat.add_comm]

theorem processPlan_all_ok (plan : List SlideData) (prs : Template)
    (hok : ∀ e ∈ plan, ∃ out, processEntry prs.slideLayouts e = .ok out) :
    ∃ res, processPlan prs plan = .ok res := by
  induction plan generalizing prs with
  | nil => exact ⟨(prs, []), rfl⟩
  | cons e rest ih =>
    obtain ⟨⟨sls, logs⟩, hpe⟩ := hok e (List.mem_cons_self e rest)
    obtain ⟨⟨prs', logs2⟩, hpp⟩ := ih { prs with slides := prs.slides ++ sls }
      (fun x hx => hok x (List.mem_cons_of_mem e hx))
    refine ⟨(prs', logs ++ logs2), ?_⟩
    unfold processPlan
    rw [hpe]
    dsimp only
    rw [hpp]

/-- The title text of a slide: the text of its first text-bearing shape. -/
def slideTitleText (sl : Slide) : Option String :=
  (slideTextShapes sl).head?.map (fun sh => sh.tf.text)

/-- In the benign case the assembled slide's title text is exactly the
entry's title (default `"Untitled"`). -/
theorem processEntry_title (layouts : List SlideLayout) (e : SlideData) (ly : SlideLayout)
    (hres : pyIndex layouts (resolvedIndex layouts.length e) = some ly)
    (hadd : ly.addSlideFails = false)
    (hne : ly.shapes.filter (fun sp => sp.hasTextFrame) ≠ [])
    (hben : ∀ sp ∈ ly.shapes, sp.assignFails = false)
    (hnf : ly.notesFails = false) :
    ∃ sl : Slide,
      processEntry layouts e = .ok ([sl], (resolveLayoutIndex layouts.length e).2) ∧
      slideTitleText sl = some (e.title.getD "Untitled") := by
  obtain ⟨sl, hpe, hshapes, hnotes⟩ := processEntry_benign layouts e ly hres hadd hne hben hnf
  refine ⟨sl, hpe, ?_⟩
  obtain ⟨sp0, rest, hfts⟩ := List.exists_cons_of_ne_nil hne
  unfold slideTitleText
  rw [hshapes]
  rw [List.head?_eq_getElem?, ← List.get?_eq_getElem?]
  rw [get?_applyAt_ne _ 1 0 _ (by decide)]
  rw [get?_applyAt_self]
  rw [hfts]
  simp [text_setText]

/-- All-valid entries: each contributes exactly one slide carrying its
title. -/
theorem flatMap_entrySlides_titles (layouts : List SlideLayout) (plan : List SlideData)
    (hval : ∀ e ∈ plan, ∃ ly,
      pyIndex layouts (resolvedIndex layouts.length e) = some ly ∧
      ly.addSlideFails = false ∧
      ly.shapes.filter (fun sp => sp.hasTextFrame) ≠ [] ∧
      (∀ sp ∈ ly.shapes, sp.assignFails = false) ∧
      ly.notesFails = false) :
    (plan.flatMap (entrySlides layouts)).map slideTitleText =
      plan.map (fun e => some (e.title.getD "Untitled")) ∧
    (plan.flatMap (entrySlides layouts)).length = plan.length := by
  induction plan with
  | nil => exact ⟨rfl, rfl⟩
  | cons e rest ih =>
    obtain ⟨ly, hres, hadd, hne, hben, hnf⟩ := hval e (List.mem_cons_self e rest)
    obtain ⟨sl, hpe, htitle⟩ := processEntry_title layouts e ly hres hadd hne hben hnf
    obtain ⟨ih1, ih2⟩ := ih (fun x hx => hval x (List.mem_cons_of_mem e hx))
    have hes : entrySlides layouts e = [sl] := by
      unfold entrySlides
      rw [hpe]
    rw [List.flatMap_cons, hes]
    constructor
    · simp [htitle, ih1]
    · simp [ih2]

theorem all_ok_of_valid (layouts : List SlideLayout) (plan : List SlideData)
    (hval : ∀ e ∈ plan, ∃ ly,
      pyIndex layouts (resolvedIndex layouts.length e) = some ly ∧
      ly.addSlideFails = false ∧
      ly.shapes.filter (fun sp => sp.hasTextFrame) ≠ [] ∧
      (∀ sp ∈ ly.shapes, sp.assignFails = false) ∧
      ly.notesFails = false) :
    ∀ e ∈ plan, ∃ out, processEntry layouts e = .ok out := by
  intro e he
  obtain ⟨ly, hres, hadd, hne, hben, hnf⟩ := hval e he
  obtain ⟨sl, hpe, _⟩ := processEntry_title layouts e ly hres hadd hne hben hnf
  exact ⟨_, hpe⟩

/-- The assembler on a plan of all-valid entries: the run succeeds, the
document gains exactly one slide per entry after the template's
pre-existing slides, and the appended slides carry the plan titles in
order. -/
theorem build_benign (T : Template) (plan : List SlideData)
    (hsave : T.saveFails = false)
    (hval : ∀ e ∈ plan, ∃ ly,
      pyIndex T.slideLayouts (resolvedIndex T.slideLayouts.length e) = some ly ∧
      ly.addSlideFails = false ∧
      ly.shapes.filter (fun sp => sp.hasTextFrame) ≠ [] ∧
      (∀ sp ∈ ly.shapes, sp.assignFails = false) ∧
      ly.notesFails = false) :
    ∃ prs2 logs, build_presentation (some T) plan = .ok (prs2, logs) ∧
      prs2.slides.length = T.slides.length + plan.length ∧
      (prs2.slides.drop T.slides.length).map slideTitleText =
        plan.map (fun e => some (e.title.getD "Untitled")) := by
  obtain ⟨⟨prs2, logs⟩, hpp⟩ := processPlan_all_ok plan T (all_ok_of_valid T.slideLayouts plan hval)
  obtain ⟨h1, _h2, _h3⟩ := processPlan_ok plan T prs2 logs hpp
  obtain ⟨ht1, ht2⟩ := flatMap_entrySlides_titles T.slideLayouts plan hval
  have hsave2 : prs2.saveFails = false := by rw [h1]; exact hsave
  refine ⟨prs2, logs, ?_, ?_, ?_⟩
  · unfold build_presentation
    dsimp only
    rw [hpp]
    simp [hsave2]
  · rw [h1]
    simp [ht2]
  · rw [h1]
    simp only [List.drop_left]
    exact ht1

/-! ### Facts about the inspector -/

theorem layoutsInfoAux_length (i : Nat) (L : List SlideLayout) :
    (layoutsInfoAux i L).length = L.length := by
  induction L generalizing i with
  | nil => rfl
  | cons ly rest ih => simp [layoutsInfoAux, ih]

theorem layoutsInfoAux_index (i : Nat) (L : List SlideLayout) :
    (layoutsInfoAux i L).map (fun l => l.index) = List.range' i L.length := by
  induction L generalizing i with
  | nil => rfl
  | cons ly rest ih => simp [layoutsInfoAux, List.range']; exact ih (i + 1)

theorem layoutsInfoAux_name (i : Nat) (L : List SlideLayout) :
    (layoutsInfoAux i L).map (fun l => l.name) = L.map (fun ly => ly.name) := by
  induction L generalizing i with
  | nil => rfl
  | cons ly rest ih => simp [layoutsInfoAux, ih]

theorem map_placeholderData_id (ps : List PlaceholderData) :
    ps.map (fun p => ({ idx := p.idx, type := p.type, name := p.name } : PlaceholderData)) = ps := by
  induction ps with
  | nil => rfl
  | cons p rest ih => simp [ih]

theorem layoutsInfoAux_placeholders (i : Nat) (L : List SlideLayout) :
    (layoutsInfoAux i L).map (fun l => l.placeholders) = L.map (fun ly => ly.placeholders) := by
  induction L generalizing i with
  | nil => rfl
  | cons ly rest ih => simp [layoutsInfoAux, ih, map_placeholderData_id]

/-- Benign case with at least two text-bearing shapes: the second one
ends up holding exactly `setContentTF` of the entry's content applied to
a fresh frame, the first one holds the title. -/
theorem processEntry_bodyTF (layouts : List SlideLayout) (e : SlideData) (ly : SlideLayout)
    (sp0 sp1 : ShapeSpec) (rest' : List ShapeSpec)
    (hres : pyIndex layouts (resolvedIndex layouts.length e) = some ly)
    (hadd : ly.addSlideFails = false)
    (hfts : ly.shapes.filter (fun sp => sp.hasTextFrame) = sp0 :: sp1 :: rest')
    (hben : ∀ sp ∈ ly.shapes, sp.assignFails = false)
    (hnf : ly.notesFails = false) :
    ∃ sl : Slide,
      processEntry layouts e = .ok ([sl], (resolveLayoutIndex layouts.length e).2) ∧
      ((slideTextShapes sl).get? 1).map (fun sh => sh.tf) =
        some (setContentTF (e.content.getD (.items [])) emptyTextFrame) ∧
      slideTitleText sl = some (e.title.getD "Untitled") ∧
      sl.notesTF = (if e.notes.getD "" = "" then none else some (TextFrame.setText (e.notes.getD ""))) := by
  have hne : ly.shapes.filter (fun sp => sp.hasTextFrame) ≠ [] := by
    rw [hfts]
    simp
  obtain ⟨sl, hpe, hshapes, hnotes⟩ := processEntry_benign layouts e ly hres hadd hne hben hnf
  refine ⟨sl, hpe, ?_, ?_, hnotes⟩
  · rw [hshapes, get?_applyAt_self, get?_applyAt_ne _ 0 1 _ (by decide), hfts]
    simp
  · unfold slideTitleText
    rw [hshapes, List.head?_eq_getElem?, ← List.get?_eq_getElem?,
      get?_applyAt_ne _ 1 0 _ (by decide), get?_applyAt_self, hfts]
    simp [text_setText]

/-! ### Concrete fixtures -/

def plainShape : ShapeSpec := { hasTextFrame := true, assignFails := false }

def pictureShape : ShapeSpec := { hasTextFrame := false, assignFails := false }

def rejectShape : ShapeSpec := { hasTextFrame := true, assignFails := true }

def coverLayout : SlideLayout :=
  { name := "Title Slide", placeholders := [{ idx := 0, type := "TITLE", name := "Title 1" }],
    shapes := [plainShape, plainShape], addSlideFails := false, notesFails := false }

def basicLayout : SlideLayout :=
  { name := "Title and Content", placeholders := [{ idx := 0, type := "TITLE", name := "Title 1" }, { idx := 1, type := "BODY", name := "Content 2" }],
    shapes := [plainShape, plainShape], addSlideFails := false, notesFails := false }

def wideLayout : SlideLayout :=
  { name := "Comparison", placeholders := [],
    shapes := [plainShape, plainShape, plainShape], addSlideFails := false, notesFails := false }

def bareLayout : SlideLayout :=
  { name := "Blank", placeholders := [], shapes := [pictureShape], addSlideFails := false, notesFails := false }

def titleRejectLayout : SlideLayout :=
  { name := "Rejecting title", placeholders := [], shapes := [rejectShape, plainShape], addSlideFails := false, notesFails := false }

def bodyRejectLayout : SlideLayout :=
  { name := "Rejecting body", placeholders := [], shapes := [plainShape, rejectShape], addSlideFails := false, notesFails := false }

def basicTemplate : Template :=
  { slideLayouts := [coverLayout, basicLayout], slides := [], saveFails := false }

def threeTemplate : Template :=
  { slideLayouts := [coverLayout, basicLayout, wideLayout], slides := [], saveFails := false }

def bareTemplate : Template :=
  { slideLayouts := [coverLayout, bareLayout], slides := [], saveFails := false }

def titleRejectTemplate : Template :=
  { slideLayouts := [coverLayout, titleRejectLayout], slides := [], saveFails := false }

def bodyRejectTemplate : Template :=
  { slideLayouts := [coverLayout, bodyRejectLayout], slides := [], saveFails := false }

def oneLayoutTemplate : Template :=
  { slideLayouts := [basicLayout], slides := [], saveFails := false }

def entryFive : SlideData :=
  { layout_index := some 1, title := some "T",
    content := some (.items ["a", "b", "c", "d", "e"]), notes := none }

def entryPlain : SlideData :=
  { layout_index := some 1, title := some "T", content := some (.items ["a"]), notes := some "n" }

def entryNeg : SlideData :=
  { layout_index := some (-1), title := some "T", content := some (.str "hi"), notes := none }

def entryNegBig : SlideData :=
  { layout_index := some (-5), title := some "T", content := some (.str "hi"), notes := none }

def entryBig : SlideData :=
  { layout_index := some 5, title := some "B", content := some (.items ["x"]), notes := none }

def entryNotes : SlideData :=
  { layout_index := some 1, title := some "X", content := some (.items ["a", "b"]), notes := some "hello" }

def entryNewline : SlideData :=
  { layout_index := some 1, title := some "T", content := some (.str "a\nb"), notes := none }

def entryDefaults : SlideData :=
  { layout_index := none, title := none, content := none, notes := none }

/-! ### Result extractors for concrete runs -/

def runSlides (r : Except BuildError (List Slide × List LogEvent)) : Option (List Slide) :=
  match r with
  | .ok (sls, _) => some sls
  | .error _ => none

def runLogs (r : Except BuildError (List Slide × List LogEvent)) : Option (List LogEvent) :=
  match r with
  | .ok (_, logs) => some logs
  | .error _ => none

def runBody (r : Except BuildError (List Slide × List LogEvent)) : Option TextFrame :=
  match r with
  | .ok ([sl], _) => ((slideTextShapes sl).get? 1).map (fun sh => sh.tf)
  | _ => none

def runBodyParagraphs (r : Except BuildError (List Slide × List LogEvent)) : Option (List Paragraph) :=
  (runBody r).map (fun tf => tf.paragraphs)

def runBodyText (r : Except BuildError (List Slide × List LogEvent)) : Option String :=
  (runBody r).map TextFrame.text

def runNotes (r : Except BuildError (List Slide × List LogEvent)) : Option (Option TextFrame) :=
  match r with
  | .ok ([sl], _) => some sl.notesTF
  | _ => none

def buildSlideCount (r : Except BuildError (Template × List LogEvent)) : Option Nat :=
  match r with
  | .ok (prs, _) => some prs.slides.length
  | .error _ => none

/-! ### The claims -/

/-- C1 (counterexample): an entry with 5 content items yields a body
shape with 6 paragraphs, not 5 — `clear()` leaves one empty paragraph
that the appended item paragraphs follow. -/
theorem c1_counterexample :
    (runBodyParagraphs (processEntry basicTemplate.slideLayouts entryFive)).map List.length = some 6 ∧
    (runBodyParagraphs (processEntry basicTemplate.slideLayouts entryFive)).map List.length ≠ some 5 := by
  constructor
  · rfl
  · decide

/-- C1 (amended): for an entry whose content is an ordered sequence of N
strings, the second text-bearing shape of the assembled slide contains
exactly N+1 paragraphs: the one empty paragraph left by clearing the
frame, followed by one paragraph per item in input order, each at
indentation level 0 and font size 18pt. -/
theorem c1_items_paragraphs (layouts : List SlideLayout) (e : SlideData) (ly : SlideLayout)
    (l : List String) (sp0 sp1 : ShapeSpec) (rest' : List ShapeSpec)
    (hres : pyIndex layouts (resolvedIndex layouts.length e) = some ly)
    (hadd : ly.addSlideFails = false)
    (hfts : ly.shapes.filter (fun sp => sp.hasTextFrame) = sp0 :: sp1 :: rest')
    (hben : ∀ sp ∈ ly.shapes, sp.assignFails = false)
    (hnf : ly.notesFails = false)
    (hc : e.content = some (.items l)) :
    ∃ sl : Slide,
      processEntry layouts e = .ok ([sl], (resolveLayoutIndex layouts.length e).2) ∧
      ((slideTextShapes sl).get? 1).map (fun sh => sh.tf.paragraphs) =
        some (emptyParagraph :: l.map (fun it => { text := it, level := 0, fontSize := some 18 })) := by
  obtain ⟨sl, hpe, hbody, _htitle, _hnotes⟩ :=
    processEntry_bodyTF layouts e ly sp0 sp1 rest' hres hadd hfts hben hnf
  refine ⟨sl, hpe, ?_⟩
  cases hx : (slideTextShapes sl).get? 1 with
  | none => rw [hx] at hbody; exact absurd hbody (by simp)
  | some sh =>
    rw [hx] at hbody
    simp only [Option.map_some'] at hbody ⊢
    injection hbody with hbody
    rw [hbody, hc]
    rw [show ((some (ContentVal.items l)).getD (ContentVal.items [])) = ContentVal.items l from rfl]
    rw [setContentTF_items]

/-- C1 (witness): the amended statement at a concrete 5-item entry. -/
theorem c1_witness :
    ∃ sl : Slide,
      processEntry basicTemplate.slideLayouts entryFive =
        .ok ([sl], (resolveLayoutIndex basicTemplate.slideLayouts.length entryFive).2) ∧
      ((slideTextShapes sl).get? 1).map (fun sh => sh.tf.paragraphs) =
        some (emptyParagraph ::
          ["a", "b", "c", "d", "e"].map (fun it => { text := it, level := 0, fontSize := some 18 })) :=
  c1_items_paragraphs basicTemplate.slideLayouts entryFive basicLayout
    ["a", "b", "c", "d", "e"] plainShape plainShape [] rfl rfl rfl (by decide) rfl rfl

/-- C2 (counterexample): with three layouts, the entry `layout_index = -1`
is NOT resolved to the default layout 1 (which has 2 shapes) — it
Python-indexes from the end, instantiating layout 2 (3 shapes) — and no
warning at all is recorded. -/
theorem c2_counterexample :
    (runSlides (processEntry threeTemplate.slideLayouts entryNeg)).map
      (fun sls => sls.map (fun sl => sl.shapes.length)) = some [3] ∧
    runLogs (processEntry threeTemplate.slideLayouts entryNeg) = some [] := by
  exact ⟨rfl, rfl⟩

/-- C2 (amended): only `layout_index ≥ num_layouts` falls back to the
fixed default index 1, with a warning, after which (for a benign default
layout) the entry is assembled normally; a negative `layout_index` is
never clamped and never warned about: in `[-n, -1]` it selects a layout
from the end of the sequence, and below `-n` the `add_slide` failure is
caught, the entry is skipped with a logged error, and the run
continues — in no case a crash. -/
theorem c2_layout_resolution (layouts : List SlideLayout) (e : SlideData) (li : Int)
    (hli : e.layout_index = some li) :
    ((layouts.length : Int) ≤ li →
      resolveLayoutIndex layouts.length e = (1, [.layoutFallback li]) ∧
      ∀ ly, pyIndex layouts 1 = some ly → ly.addSlideFails = false →
        ly.shapes.filter (fun sp => sp.hasTextFrame) ≠ [] →
        (∀ sp ∈ ly.shapes, sp.assignFails = false) → ly.notesFails = false →
        ∃ sl, processEntry layouts e = .ok ([sl], [.layoutFallback li])) ∧
    (li < 0 → resolveLayoutIndex layouts.length e = (li, [])) ∧
    (li < -(layouts.length : Int) → processEntry layouts e = .ok ([], [.addSlideFailed li])) := by
  have hr : ∀ h : (layouts.length : Int) ≤ li,
      resolveLayoutIndex layouts.length e = (1, [.layoutFallback li]) := by
    intro h
    unfold resolveLayoutIndex
    rw [hli]
    simp [h]
  have hneg : ∀ h : li < 0, resolveLayoutIndex layouts.length e = (li, []) := by
    intro h
    unfold resolveLayoutIndex
    rw [hli]
    have : ¬(layouts.length : Int) ≤ li := by omega
    simp [this]
  refine ⟨fun h => ⟨hr h, ?_⟩, hneg, ?_⟩
  · intro ly hly hadd hne hben hnf
    have hres : pyIndex layouts (resolvedIndex layouts.length e) = some ly := by
      unfold resolvedIndex
      rw [hr h]
      exact hly
    obtain ⟨sl, hpe, _, _⟩ := processEntry_benign layouts e ly hres hadd hne hben hnf
    rw [hr h] at hpe
    exact ⟨sl, hpe⟩
  · intro h
    have h0 : li < 0 := by
      have : (0 : Int) ≤ (layouts.length : Int) := by positivity
      omega
    have hidx : resolvedIndex layouts.length e = li := by
      unfold resolvedIndex
      rw [hneg h0]
    have hnone : pyIndex layouts (resolvedIndex layouts.length e) = none := by
      rw [hidx]
      unfold pyIndex
      have h1 : ¬(0 : Int) ≤ li := by omega
      have h2 : ¬(0 : Int) ≤ (layouts.length : Int) + li := by omega
      simp [h1, h2]
    have := processEntry_skip_badIndex layouts e hnone
    rw [this, hneg h0, hidx]
    rfl

/-- C2 (witness): the amended statement at `layout_index = 5` against a
two-layout template: clamped to layout 1 with a recorded warning, slide
assembled. -/
theorem c2_witness :
    resolveLayoutIndex basicTemplate.slideLayouts.length entryBig = (1, [.layoutFallback 5]) ∧
    ∃ sl, processEntry basicTemplate.slideLayouts entryBig = .ok ([sl], [.layoutFallback 5]) := by
  obtain ⟨ha, _hb, _hc⟩ := c2_layout_resolution basicTemplate.slideLayouts entryBig 5 rfl
  obtain ⟨h1, h2⟩ := ha (by decide)
  exact ⟨h1, h2 basicLayout rfl rfl (by decide) (by decide) rfl⟩

/-- C3 (counterexample): a first text shape that rejects assignment makes
the whole run abort with an uncaught error — the title binding is not
wrapped in a `try`, so the failure is not isolated to that field and no
document is produced. -/
theorem c3_counterexample :
    build_presentation (some titleRejectTemplate) [entryPlain] = .error .titleBindError := by
  rfl

/-- C3 (amended): content and notes binding failures are caught and
logged per-field without aborting the entry or the run — the other
fields of the slide still get their assignment — but a failure while
assigning the title is NOT caught: it propagates and aborts the whole
run. -/
theorem c3_field_isolation (layouts : List SlideLayout) (e : SlideData) (ly : SlideLayout)
    (hres : pyIndex layouts (resolvedIndex layouts.length e) = some ly)
    (hadd : ly.addSlideFails = false) :
    (∀ sp0 sp1 rest', ly.shapes.filter (fun sp => sp.hasTextFrame) = sp0 :: sp1 :: rest' →
      sp0.assignFails = false → sp1.assignFails = true → ly.notesFails = false →
      ∃ sl, processEntry layouts e =
          .ok ([sl], (resolveLayoutIndex layouts.length e).2 ++ [.contentFailed]) ∧
        slideTitleText sl = some (e.title.getD "Untitled") ∧
        sl.notesTF = (if e.notes.getD "" = "" then none else some (TextFrame.setText (e.notes.getD "")))) ∧
    (ly.shapes.filter (fun sp => sp.hasTextFrame) ≠ [] →
      (∀ sp ∈ ly.shapes, sp.assignFails = false) → ly.notesFails = true → e.notes.getD "" ≠ "" →
      ∃ sl, processEntry layouts e =
          .ok ([sl], (resolveLayoutIndex layouts.length e).2 ++ [.notesFailed]) ∧
        slideTitleText sl = some (e.title.getD "Untitled") ∧
        sl.notesTF = none) ∧
    (∀ sp0 rest, ly.shapes.filter (fun sp => sp.hasTextFrame) = sp0 :: rest →
      sp0.assignFails = true → processEntry layouts e = .error .titleBindError) := by
  refine ⟨?_, ?_, ?_⟩
  · intro sp0 sp1 rest' hfts hsp0 hsp1 hnf
    obtain ⟨sl, hpe, hshapes, hnotes⟩ :=
      processEntry_contentFail layouts e ly sp0 sp1 rest' hres hadd hfts hsp0 hsp1 hnf
    refine ⟨sl, ?_, ?_, hnotes⟩
    · rw [hpe]
      by_cases hx : e.notes.getD "" = "" <;> simp [hx]
    · unfold slideTitleText
      rw [hshapes, List.head?_eq_getElem?, ← List.get?_eq_getElem?, get?_applyAt_self, hfts]
      simp [text_setText]
  · intro hne hben hnf hnx
    obtain ⟨sl, hpe, hshapes, hnotes⟩ :=
      processEntry_notesFail layouts e ly hres hadd hne hben hnf hnx
    refine ⟨sl, hpe, ?_, hnotes⟩
    unfold slideTitleText
    obtain ⟨sp0, rest, hfts⟩ := List.exists_cons_of_ne_nil hne
    rw [hshapes, List.head?_eq_getElem?, ← List.get?_eq_getElem?,
      get?_applyAt_ne _ 1 0 _ (by decide), get?_applyAt_self, hfts]
    simp [text_setText]
  · intro sp0 rest hfts hsp0
    exact processEntry_titleFail layouts e ly hres hadd sp0 rest hfts hsp0

/-- C3 (witness): the amended statement at a concrete entry whose body
shape rejects text: the content failure is logged, the title and notes
are still bound. -/
theorem c3_witness :
    ∃ sl, processEntry bodyRejectTemplate.slideLayouts entryPlain = .ok ([sl], [.contentFailed]) ∧
      slideTitleText sl = some "T" ∧
      sl.notesTF = some (TextFrame.setText "n") := by
  obtain ⟨h1, _h2, _h3⟩ :=
    c3_field_isolation bodyRejectTemplate.slideLayouts entryPlain bodyRejectLayout rfl rfl
  obtain ⟨sl, ha, hb, hc⟩ := h1 plainShape rejectShape [] rfl rfl rfl rfl
  refine ⟨sl, ?_, ?_, ?_⟩
  · simpa using ha
  · simpa using hb
  · simpa using hc

/-- C4 (counterexample): the assembler adds no cover slide of its own.
One valid entry against a template with no pre-existing slides yields a
document with exactly 1 slide, not N+1 = 2. -/
theorem c4_counterexample :
    buildSlideCount (build_presentation (some basicTemplate) [entryPlain]) = some 1 ∧
    buildSlideCount (build_presentation (some basicTemplate) [entryPlain]) ≠ some 2 := by
  constructor
  · rfl
  · decide

/-- C4 (amended): assembling a plan of N valid entries (each resolving
to a layout with at least one text-bearing shape that accepts text)
appends exactly N slides after whatever slides the template already
contains — N+1 total only when the template carries exactly one
pre-existing (cover) slide — and the appended slides' titles match the
plan titles in order. -/
theorem c4_round_trip (T : Template) (plan : List SlideData)
    (hsave : T.saveFails = false)
    (hval : ∀ e ∈ plan, ∃ ly,
      pyIndex T.slideLayouts (resolvedIndex T.slideLayouts.length e) = some ly ∧
      ly.addSlideFails = false ∧
      ly.shapes.filter (fun sp => sp.hasTextFrame) ≠ [] ∧
      (∀ sp ∈ ly.shapes, sp.assignFails = false) ∧
      ly.notesFails = false) :
    ∃ prs2 logs, build_presentation (some T) plan = .ok (prs2, logs) ∧
      prs2.slides.length = T.slides.length + plan.length ∧
      (prs2.slides.drop T.slides.length).map slideTitleText =
        plan.map (fun e => some (e.title.getD "Untitled")) :=
  build_benign T plan hsave hval

/-- C4 (witness): two valid entries against the two-layout template give
a 2-slide document whose titles are the plan titles in order. -/
theorem c4_witness :
    ∃ prs2 logs, build_presentation (some basicTemplate) [entryPlain, entryFive] = .ok (prs2, logs) ∧
      prs2.slides.length = basicTemplate.slides.length + 2 ∧
      (prs2.slides.drop basicTemplate.slides.length).map slideTitleText = [some "T", some "T"] := by
  have h := c4_round_trip basicTemplate [entryPlain, entryFive] rfl ?_
  · simpa using h
  · intro e he
    refine ⟨basicLayout, ?_, rfl, by decide, by decide, rfl⟩
    rcases List.mem_cons.mp he with h | h
    · subst h; rfl
    · rcases List.mem_cons.mp h with h | h
      · subst h; rfl
      · exact absurd h (by simp)

/-- C5 (counterexample): an entry with non-empty notes whose resolved
layout has no text-bearing shapes: the slide IS created, but the
`continue` taken on the empty shape list skips the notes block too, so
nothing is written to the speaker-notes container. -/
theorem c5_counterexample :
    runNotes (processEntry bareTemplate.slideLayouts entryNotes) = some none ∧
    runLogs (processEntry bareTemplate.slideLayouts entryNotes) = some [.noTextShapes 1] := by
  exact ⟨rfl, rfl⟩

/-- C5 (amended): non-empty notes are written to the slide's
speaker-notes container only when the created slide has at least one
text-bearing shape (the no-text-shape `continue` fires before the notes
block); a failure while writing them is logged, not fatal; with zero
text-bearing shapes the slide survives but its notes container stays
empty. -/
theorem c5_notes (layouts : List SlideLayout) (e : SlideData) (ly : SlideLayout)
    (hres : pyIndex layouts (resolvedIndex layouts.length e) = some ly)
    (hadd : ly.addSlideFails = false) :
    (ly.shapes.filter (fun sp => sp.hasTextFrame) ≠ [] →
      (∀ sp ∈ ly.shapes, sp.assignFails = false) → ly.notesFails = false → e.notes.getD "" ≠ "" →
      ∃ sl, processEntry layouts e = .ok ([sl], (resolveLayoutIndex layouts.length e).2) ∧
        sl.notesTF.map TextFrame.text = some (e.notes.getD "")) ∧
    (ly.shapes.filter (fun sp => sp.hasTextFrame) ≠ [] →
      (∀ sp ∈ ly.shapes, sp.assignFails = false) → ly.notesFails = true → e.notes.getD "" ≠ "" →
      ∃ sl, processEntry layouts e =
          .ok ([sl], (resolveLayoutIndex layouts.length e).2 ++ [.notesFailed]) ∧
        sl.notesTF = none) ∧
    (ly.shapes.filter (fun sp => sp.hasTextFrame) = [] →
      processEntry layouts e =
        .ok ([instantiateSlide ly],
          (resolveLayoutIndex layouts.length e).2 ++ [.noTextShapes (resolvedIndex layouts.length e)]) ∧
      (instantiateSlide ly).notesTF = none) := by
  refine ⟨?_, ?_, ?_⟩
  · intro hne hben hnf hnx
    obtain ⟨sl, hpe, _hshapes, hnotes⟩ := processEntry_benign layouts e ly hres hadd hne hben hnf
    refine ⟨sl, hpe, ?_⟩
    rw [hnotes, if_neg hnx]
    simp [text_setText]
  · intro hne hben hnf hnx
    obtain ⟨sl, hpe, _hshapes, hnotes⟩ :=
      processEntry_notesFail layouts e ly hres hadd hne hben hnf hnx
    exact ⟨sl, hpe, hnotes⟩
  · intro hempty
    exact ⟨processEntry_noTextShapes layouts e ly hres hadd hempty, notesTF_instantiate ly⟩

/-- C5 (witness): the amended statement at a concrete entry with notes
"hello" on a benign layout: the notes text round-trips verbatim. -/
theorem c5_witness :
    ∃ sl, processEntry basicTemplate.slideLayouts entryNotes =
        .ok ([sl], (resolveLayoutIndex basicTemplate.slideLayouts.length entryNotes).2) ∧
      sl.notesTF.map TextFrame.text = some "hello" := by
  obtain ⟨h1, _h2, _h3⟩ := c5_notes basicTemplate.slideLayouts entryNotes basicLayout rfl rfl
  obtain ⟨sl, ha, hb⟩ := h1 (by decide) (by decide) rfl (by decide)
  exact ⟨sl, ha, by simpa using hb⟩

/-- C6: on any completed run, the document gains exactly the slides of
the entries whose `add_slide` succeeded, in plan order after the
template's pre-existing slides (at most one per plan entry), and a skip
log record is emitted for exactly the entries not represented. -/
theorem c6_slide_accounting (T : Template) (plan : List SlideData)
    (prs2 : Template) (logs : List LogEvent)
    (h : build_presentation (some T) plan = .ok (prs2, logs)) :
    prs2.slides = T.slides ++ plan.flatMap (entrySlides T.slideLayouts) ∧
    (plan.flatMap (entrySlides T.slideLayouts)).length =
      (plan.filter (fun e => addSucceeds T.slideLayouts e)).length ∧
    prs2.slides.length ≤ T.slides.length + plan.length ∧
    logs.countP LogEvent.isSkip = (plan.filter (fun e => !addSucceeds T.slideLayouts e)).length := by
  unfold build_presentation at h
  dsimp only at h
  cases hpp : processPlan T plan with
  | error err => rw [hpp] at h; exact absurd h (by simp)
  | ok out =>
    obtain ⟨p2, lg⟩ := out
    rw [hpp] at h
    dsimp only at h
    by_cases hs : p2.saveFails
    · rw [if_pos hs] at h
      exact absurd h (by simp)
    · rw [if_neg hs] at h
      injection h with h'
      injection h' with h1 h2
      subst h1
      subst h2
      obtain ⟨hp1, hp2, hp3⟩ := processPlan_ok plan T _ _ hpp
      obtain ⟨hc1, hc2⟩ := plan_counts T.slideLayouts plan hp3
      refine ⟨?_, hc1, ?_, ?_⟩
      · rw [hp1]
      · rw [hp1]
        simp only [List.length_append]
        have := List.length_filter_le (fun e => addSucceeds T.slideLayouts e) plan
        omega
      · rw [hp2]
        exact hc2

/-- C6 (witness): a plan whose second entry has layout index -5 (a hard
`IndexError` in `add_slide`): one slide is added for the first entry,
one skip record is logged for the second. -/
theorem c6_witness :
    ∃ prs2 logs, build_presentation (some basicTemplate) [entryPlain, entryNegBig] = .ok (prs2, logs) ∧
      prs2.slides = basicTemplate.slides ++
        ([entryPlain, entryNegBig].flatMap (entrySlides basicTemplate.slideLayouts)) ∧
      logs.countP LogEvent.isSkip =
        ([entryPlain, entryNegBig].filter
          (fun e => !addSucceeds basicTemplate.slideLayouts e)).length := by
  have hb : ∃ out, build_presentation (some basicTemplate) [entryPlain, entryNegBig] = .ok out :=
    ⟨_, rfl⟩
  obtain ⟨⟨prs2, logs⟩, hb⟩ := hb
  obtain ⟨h1, _h2, _h3, h4⟩ := c6_slide_accounting basicTemplate [entryPlain, entryNegBig] prs2 logs hb
  exact ⟨prs2, logs, hb, h1, h4⟩

/-- C7 (counterexample): a single-string content containing a newline IS
split into paragraphs — "a\nb" produces two paragraphs, not one — while
the shape's text still reads back verbatim. -/
theorem c7_counterexample :
    (runBodyParagraphs (processEntry basicTemplate.slideLayouts entryNewline)).map List.length = some 2 ∧
    (runBodyParagraphs (processEntry basicTemplate.slideLayouts entryNewline)).map List.length ≠ some 1 ∧
    runBodyText (processEntry basicTemplate.slideLayouts entryNewline) = some "a\nb" := by
  refine ⟨rfl, ?_, rfl⟩
  decide

/-- C7 (amended): for an entry whose content is a single string, the
second text-bearing shape's text reads back as that string verbatim
(newlines round-trip through the paragraph joins), but the string is
split into one paragraph per newline-separated segment; only when the
string contains no newline does the shape hold a single paragraph with
the string, unsplit. -/
theorem c7_string_content (layouts : List SlideLayout) (e : SlideData) (ly : SlideLayout)
    (s : String) (sp0 sp1 : ShapeSpec) (rest' : List ShapeSpec)
    (hres : pyIndex layouts (resolvedIndex layouts.length e) = some ly)
    (hadd : ly.addSlideFails = false)
    (hfts : ly.shapes.filter (fun sp => sp.hasTextFrame) = sp0 :: sp1 :: rest')
    (hben : ∀ sp ∈ ly.shapes, sp.assignFails = false)
    (hnf : ly.notesFails = false)
    (hc : e.content = some (.str s)) :
    ∃ sl : Slide,
      processEntry layouts e = .ok ([sl], (resolveLayoutIndex layouts.length e).2) ∧
      ((slideTextShapes sl).get? 1).map (fun sh => sh.tf.text) = some s ∧
      ((slideTextShapes sl).get? 1).map (fun sh => sh.tf.paragraphs) =
        some ((s.toList.splitOn '\n').map
          (fun cs => { text := String.mk cs, level := 0, fontSize := none })) ∧
      ('\n' ∉ s.toList →
        ((slideTextShapes sl).get? 1).map (fun sh => sh.tf.paragraphs) =
          some [{ text := s, level := 0, fontSize := none }]) := by
  obtain ⟨sl, hpe, hbody, _htitle, _hnotes⟩ :=
    processEntry_bodyTF layouts e ly sp0 sp1 rest' hres hadd hfts hben hnf
  cases hx : (slideTextShapes sl).get? 1 with
  | none => rw [hx] at hbody; exact absurd hbody (by simp)
  | some sh =>
    rw [hx] at hbody
    simp only [Option.map_some'] at hbody
    injection hbody with hbody
    have htf : sh.tf = TextFrame.setText s := by
      rw [hbody, hc]
      rfl
    refine ⟨sl, hpe, ?_, ?_, ?_⟩
    · rw [hx]
      simp only [Option.map_some']
      rw [htf, text_setText]
    · rw [hx]
      simp only [Option.map_some']
      rw [htf]
      rfl
    · intro hno
      rw [hx]
      simp only [Option.map_some']
      rw [htf, setText_no_newline s hno]

/-- C7 (witness): the amended statement at the newline-free string
"hello": one paragraph, text verbatim. -/
theorem c7_witness :
    ∃ sl : Slide,
      processEntry basicTemplate.slideLayouts
          { layout_index := some 1, title := some "T", content := some (.str "hello"), notes := none } =
        .ok ([sl], (resolveLayoutIndex basicTemplate.slideLayouts.length
          { layout_index := some 1, title := some "T", content := some (.str "hello"), notes := none }).2) ∧
      ((slideTextShapes sl).get? 1).map (fun sh => sh.tf.text) = some "hello" ∧
      ((slideTextShapes sl).get? 1).map (fun sh => sh.tf.paragraphs) =
        some [{ text := "hello", level := 0, fontSize := none }] := by
  obtain ⟨sl, h1, h2, _h3, h4⟩ :=
    c7_string_content basicTemplate.slideLayouts
      { layout_index := some 1, title := some "T", content := some (.str "hello"), notes := none }
      basicLayout "hello" plainShape plainShape [] rfl rfl rfl (by decide) rfl rfl
  exact ⟨sl, h1, h2, h4 (by decide)⟩

/-- C8: a template that cannot be opened makes both the layout inspector
and the slide assembler fail fatally with the load error — no partial
inspection result, no output document. -/
theorem c8_load_failure :
    analyze_slide_layouts none = .error .loadError ∧
    ∀ plan : List SlideData, build_presentation none plan = .error .loadError := by
  exact ⟨rfl, fun _ => rfl⟩

/-- C9: inspection is deterministic and side-effect-free — it returns
the template unchanged, any two calls agree, and the description lists
every layout in template order with its 0-based index, name and
placeholder records. -/
theorem c9_inspection (T : Template) :
    ∃ r : AnalysisResult,
      analyze_slide_layouts (some T) = .ok (r, T) ∧
      (∀ r2 T2, analyze_slide_layouts (some T) = .ok (r2, T2) → r2 = r ∧ T2 = T) ∧
      r.total_layouts = T.slideLayouts.length ∧
      r.layouts.map (fun l => l.index) = List.range T.slideLayouts.length ∧
      r.layouts.map (fun l => l.name) = T.slideLayouts.map (fun ly => ly.name) ∧
      r.layouts.map (fun l => l.placeholders) = T.slideLayouts.map (fun ly => ly.placeholders) := by
  refine ⟨{ layouts := layoutsInfoAux 0 T.slideLayouts,
            total_layouts := (layoutsInfoAux 0 T.slideLayouts).length }, rfl, ?_, ?_, ?_, ?_, ?_⟩
  · intro r2 T2 h
    unfold analyze_slide_layouts at h
    dsimp only at h
    injection h with h'
    injection h' with h1 h2
    exact ⟨h1.symm, h2.symm⟩
  · rw [layoutsInfoAux_length]
  · rw [layoutsInfoAux_index, List.range_eq_range']
  · rw [layoutsInfoAux_name]
  · rw [layoutsInfoAux_placeholders]

/-- C9 (witness): inspecting the concrete two-layout template. -/
theorem c9_witness :
    ∃ r : AnalysisResult, analyze_slide_layouts (some basicTemplate) = .ok (r, basicTemplate) ∧
      r.total_layouts = 2 ∧ r.layouts.map (fun l => l.index) = [0, 1] := by
  obtain ⟨r, h1, _h2, h3, h4, _h5, _h6⟩ := c9_inspection basicTemplate
  exact ⟨r, h1, by simpa using h3, by simpa using h4⟩

/-- C10 (counterexample): an entry with no `layout_index` against a
single-layout template: the default index 1 is out of range there, so a
fallback warning IS recorded — the default is not always silent. -/
theorem c10_counterexample :
    runLogs (processEntry oneLayoutTemplate.slideLayouts entryDefaults) =
      some [.layoutFallback 1, .addSlideFailed 1] ∧
    LogEvent.level (.layoutFallback 1) = .warning := by
  exact ⟨rfl, rfl⟩

/-- C10 (amended): an entry that omits `layout_index` defaults to layout
index 1, silently (no warning) whenever the template has at least two
layouts; a missing title defaults to the string "Untitled" and missing
content defaults to an empty list, leaving the body as the single empty
paragraph of the cleared frame. -/
theorem c10_defaults (layouts : List SlideLayout) (e : SlideData) (ly : SlideLayout)
    (hn : 2 ≤ layouts.length)
    (hli : e.layout_index = none)
    (hres1 : pyIndex layouts 1 = some ly)
    (hadd : ly.addSlideFails = false)
    (hne : ly.shapes.filter (fun sp => sp.hasTextFrame) ≠ [])
    (hben : ∀ sp ∈ ly.shapes, sp.assignFails = false)
    (hnf : ly.notesFails = false)
    (htitle : e.title = none)
    (hcontent : e.content = none) :
    resolveLayoutIndex layouts.length e = (1, []) ∧
    ∃ sl, processEntry layouts e = .ok ([sl], []) ∧
      slideTitleText sl = some "Untitled" ∧
      (∀ sp0 sp1 rest', ly.shapes.filter (fun sp => sp.hasTextFrame) = sp0 :: sp1 :: rest' →
        ((slideTextShapes sl).get? 1).map (fun sh => sh.tf.paragraphs) = some [emptyParagraph]) := by
  have hrlv : resolveLayoutIndex layouts.length e = (1, []) := by
    unfold resolveLayoutIndex
    rw [hli]
    have : ¬(layouts.length : Int) ≤ (1 : Int) := by
      have : (2 : Int) ≤ (layouts.length : Int) := by exact_mod_cast hn
      omega
    simp only [Option.getD_none]
    rw [if_neg this]
  have hres : pyIndex layouts (resolvedIndex layouts.length e) = some ly := by
    unfold resolvedIndex
    rw [hrlv]
    exact hres1
  obtain ⟨sl, hpe, hshapes, _hnotes⟩ := processEntry_benign layouts e ly hres hadd hne hben hnf
  rw [hrlv] at hpe
  obtain ⟨sp0h, resth, hftsh⟩ := List.exists_cons_of_ne_nil hne
  refine ⟨hrlv, sl, hpe, ?_, ?_⟩
  · unfold slideTitleText
    rw [hshapes, List.head?_eq_getElem?, ← List.get?_eq_getElem?,
      get?_applyAt_ne _ 1 0 _ (by decide), get?_applyAt_self, hftsh]
    simp [text_setText, htitle]
  · intro sp0 sp1 rest' hfts
    rw [hshapes, get?_applyAt_self, get?_applyAt_ne _ 0 1 _ (by decide), hfts]
    simp only [List.map_cons, List.get?]
    simp only [Option.map_some']
    rw [hcontent]
    rfl

/-- C10 (witness): the amended statement at a concrete all-defaults
entry against the two-layout template. -/
theorem c10_witness :
    resolveLayoutIndex basicTemplate.slideLayouts.length entryDefaults = (1, []) ∧
    ∃ sl, processEntry basicTemplate.slideLayouts entryDefaults = .ok ([sl], []) ∧
      slideTitleText sl = some "Untitled" ∧
      ((slideTextShapes sl).get? 1).map (fun sh => sh.tf.paragraphs) = some [emptyParagraph] := by
  obtain ⟨h1, sl, h2, h3, h4⟩ :=
    c10_defaults basicTemplate.slideLayouts entryDefaults basicLayout (by decide) rfl rfl rfl
      (by decide) (by decide) rfl rfl rfl
  exact ⟨h1, sl, h2, h3, h4 plainShape plainShape [] rfl⟩
